import Mathlib

/-!
# GoCD Terraform provider: configuration resolution and client bootstrap

A shallow embedding of `gocd/provider.go`.

* The configuration input `d *schema.ResourceData` is used by the source only
  through `d.GetOk(key)`, which returns a dynamically typed value together
  with a presence flag; it is modelled as a record holding that function.
  The statements about `providerConfigure` hold for every such record. How the
  Terraform library fills it from the raw configuration and the schema
  defaults is mirrored separately, for the statement about fields that the
  configuration leaves out.
* The process environment is a partial map from names to values; `os.Getenv`
  returns the empty string for a name that is not set.
* `runtime.GOOS`, `runtime.GOARCH` and `terraform.VersionString()` are
  constants of the running process and are passed in as a record.
* `log.Printf` calls only write diagnostics and do not change any variable of
  `providerConfigure`; they are left out of the embedding.
-/

namespace Gocd

/-! ## Dynamic values and the outside world -/

/-- Go `interface{}` values as they can come out of `GetOk`: the nil interface,
a string, a boolean, or a value of some other dynamic type (an integer stands
for those: both type assertions of the source fail on it). -/
inductive Value where
  | nil : Value
  | str (s : String) : Value
  | bool (b : Bool) : Value
  | int (n : Int) : Value
  deriving DecidableEq, Repr

/-- Type assertion `v.(string)` in its two-result form: the string and `true`,
or the zero value `""` and `false`. -/
def Value.assertString : Value → String × Bool
  | .str s => (s, true)
  | _ => ("", false)

/-- Type assertion `v.(bool)` in its two-result form: the boolean and `true`,
or the zero value `false` and `false`. -/
def Value.assertBool : Value → Bool × Bool
  | .bool b => (b, true)
  | _ => (false, false)

/-- The part of `*schema.ResourceData` that the source uses. -/
structure ResourceData where
  GetOk : String → Value × Bool

/-- The process environment: `none` for a variable that is not set. -/
abbrev Env := String → Option String

/-- Go `os.Getenv`: the value of the variable, `""` when it is not set. -/
def Getenv (env : Env) (key : String) : String :=
  (env key).getD ""

/-- Go `strings.HasPrefix`. -/
def HasPrefix (s pre : String) : Bool :=
  pre.data.isPrefixOf s.data

/-- Process constants read by `providerConfigure`. -/
structure Runtime where
  GOOS : String
  GOARCH : String
  VersionString : String

/-! ## The client library's data -/

/-- Mirror of `gocd.Configuration`, with the fields the source fills in. -/
structure Configuration where
  Server : String
  Username : String
  Password : String
  SkipSslCheck : Bool
  deriving DecidableEq, Repr

/-- HTTP round trippers the source can install on the client. -/
inductive Transport where
  | DefaultTransport : Transport
  | TLS (InsecureSkipVerify : Bool) : Transport
  | Logging (name : String) (inner : Transport) : Transport
  deriving DecidableEq, Repr

/-- Go `logging.NewTransport(name, t)`. -/
def NewTransport (name : String) (t : Transport) : Transport :=
  .Logging name t

/-- Mirror of `http.Client`, with the field the source sets. -/
structure HttpClient where
  Transport : Transport
  deriving DecidableEq, Repr

/-- Mirror of `gocd.Client`, with what `providerConfigure` gives it. -/
structure Client where
  cfg : Configuration
  client : HttpClient
  UserAgent : String
  deriving DecidableEq, Repr

/-- Go `gocd.NewClient(cfg, httpClient)`; the user agent is set by the caller
afterwards. -/
def NewClient (cfg : Configuration) (httpClient : HttpClient) : Client :=
  { cfg := cfg, client := httpClient, UserAgent := "" }

/-- Go `error`; `none` is the nil error. -/
abbrev Error := Option String

/-! ## `providerConfigure` -/

/-- Embedding of `providerConfigure`: the client handle and the error. -/
def providerConfigure (rt : Runtime) (env : Env) (d : ResourceData) : Client × Error :=
  -- baseurl
  let (rUrl, ok) := d.GetOk "baseurl"
  let url : String :=
    if ok then
      let (url, ok) := rUrl.assertString
      if !ok || url == "" then Getenv env "GOCD_URL" else url
    else ""
  -- username
  let (rU, ok) := d.GetOk "username"
  let u : String :=
    if ok then
      let (u, ok) := rU.assertString
      if !ok || u == "" then Getenv env "GOCD_USERNAME" else u
    else ""
  -- password
  let (rP, ok) := d.GetOk "password"
  let p : String :=
    if ok then
      let (p, ok) := rP.assertString
      if !ok || p == "" then Getenv env "GOCD_PASSWORD" else p
    else ""
  -- skip_ssl_check
  let (rB, ok) := d.GetOk "skip_ssl_check"
  let nossl : Bool :=
    if ok then
      let (b, ok) := rB.assertBool
      if !ok then false else b
    else false
  let cfg : Configuration :=
    { Server := url, Username := u, Password := p, SkipSslCheck := nossl }
  let transport : Transport :=
    if HasPrefix cfg.Server "https" then
      .TLS cfg.SkipSslCheck
    else
      .DefaultTransport
  -- Add API logging
  let hClient : HttpClient := { Transport := NewTransport "GoCD" transport }
  let gc := NewClient cfg hClient
  let versionString := rt.VersionString
  let gc := { gc with
    UserAgent := "(" ++ rt.GOOS ++ " " ++ rt.GOARCH ++ ") Terraform/" ++ versionString }
  (gc, none)

/-! ## The provider descriptor -/

/-- Go `schema.ValueType`, the two kinds the provider schema uses. -/
inductive ValueType where
  | TypeBool : ValueType
  | TypeString : ValueType
  deriving DecidableEq, Repr

/-- Go `schema.SchemaDefaultFunc`: run in the process environment, it gives a
value and an error. -/
abbrev SchemaDefaultFunc := Env → Value × Error

/-- Go `schema.MultiEnvDefaultFunc(ks, dv)` of the Terraform library: the value
of the first variable of `ks` that is non-empty, as a string; `dv` when there
is none. -/
def MultiEnvDefaultFunc (ks : List String) (dv : Value) : SchemaDefaultFunc :=
  fun env =>
    match ks.find? (fun k => Getenv env k != "") with
    | some k => (.str (Getenv env k), none)
    | none => (dv, none)

/-- Embedding of `envDefault`. -/
def envDefault (e : String) : SchemaDefaultFunc :=
  MultiEnvDefaultFunc [e] .nil

/-- Mirror of `schema.Schema`, with the fields the source fills in (`Typ` is
the source's `Type`; a field left out of a Go literal is `false`). -/
structure Schema where
  Typ : ValueType
  Required : Bool := false
  Optional : Bool := false
  Description : String
  DefaultFunc : SchemaDefaultFunc

/-- The resource and data-source definitions registered by the provider. Their
bodies live in other files; each is named after the function that builds it. -/
inductive Resource where
  | dataSourceGocdJobTemplate : Resource
  | dataSourceGocdTaskDefinition : Resource
  | resourceEnvironment : Resource
  | resourceEnvironmentAssociation : Resource
  | resourcePipelineTemplate : Resource
  | resourcePipeline : Resource
  | resourcePipelineStage : Resource
  deriving DecidableEq, Repr

/-- Mirror of `schema.Provider`; Go maps are association lists with distinct
keys. -/
structure Provider where
  DataSourcesMap : List (String × Resource)
  ResourcesMap : List (String × Resource)
  Schema : List (String × Schema)
  ConfigureFunc : Runtime → Env → ResourceData → Client × Error

/-- The package variable `descriptions` as `init()` leaves it. -/
def descriptions : List (String × String) :=
  [ ("baseurl", "URL for the GoCD Server"),
    ("username", "User to interact with the GoCD API with."),
    ("password", "Password for User for GoCD API interaction.") ]

/-- Go map indexing `m[key]` on a `map[string]string`: the zero value `""` for
a key that is not in the map. -/
def mapIndex (m : List (String × String)) (key : String) : String :=
  (m.lookup key).getD ""

/-- Embedding of `SchemaProvider`. -/
def SchemaProvider : Provider :=
  { DataSourcesMap :=
      [ ("gocd_job_definition", .dataSourceGocdJobTemplate),
        ("gocd_task_definition", .dataSourceGocdTaskDefinition) ],
    ResourcesMap :=
      [ ("gocd_environment", .resourceEnvironment),
        ("gocd_environment_association", .resourceEnvironmentAssociation),
        ("gocd_pipeline_template", .resourcePipelineTemplate),
        ("gocd_pipeline", .resourcePipeline),
        ("gocd_pipeline_stage", .resourcePipelineStage) ],
    Schema :=
      [ ("baseurl",
          { Typ := .TypeString,
            Required := true,
            Description := mapIndex descriptions "gocd_baseurl",
            DefaultFunc := envDefault "GOCD_URL" }),
        ("username",
          { Typ := .TypeString,
            Optional := true,
            Description := mapIndex descriptions "username",
            DefaultFunc := envDefault "GOCD_USERNAME" }),
        ("password",
          { Typ := .TypeString,
            Optional := true,
            Description := mapIndex descriptions "password",
            DefaultFunc := envDefault "GOCD_PASSWORD" }),
        ("skip_ssl_check",
          { Typ := .TypeBool,
            Optional := true,
            Description := mapIndex descriptions "skip_ssl_check",
            DefaultFunc := envDefault "GOCD_SKIP_SSL_CHECK" }) ],
    ConfigureFunc := providerConfigure }

/-- Embedding of the function `Provider` (the underscore keeps it apart from
the record type of the same name). -/
def Provider_ : Provider :=
  SchemaProvider

/-! ## How the host builds the configuration input

`providerConfigure` is the `ConfigureFunc` of the provider: it is called by
`schema.Provider.Configure` of the Terraform library, which reads every field
of the schema from the raw configuration, takes the field's schema default
when the configuration does not set the field, and hands the result over as
`*schema.ResourceData`. That library is not part of this repository; the
definitions below mirror the parts of it that decide what `GetOk` reports for
a primitive field when there is no prior state and no computed value. -/

/-- Mirror of `terraform.ResourceConfig`, with its method `Get`: the explicit
value of a key in the raw configuration, `none` when the configuration does
not set the key. -/
structure ResourceConfig where
  Get : String → Option Value

/-- Go `strconv.ParseBool`. -/
def ParseBool (str : String) : Option Bool :=
  if str ∈ ["1", "t", "T", "TRUE", "true", "True"] then some true
  else if str ∈ ["0", "f", "F", "FALSE", "false", "False"] then some false
  else none

/-- Go `mapstructure.WeakDecode` into a string, as the field readers use it: a
string is kept, a boolean becomes "1" or "0", an integer its decimal form, and
the nil interface leaves the empty string. -/
def WeakDecode : Value → String
  | .nil => ""
  | .str s => s
  | .bool b => if b then "1" else "0"
  | .int n => toString n

/-- Go `ValueType.Zero`. -/
def ValueType.Zero : ValueType → Value
  | .TypeBool => .bool false
  | .TypeString => .str ""

/-- The library's `stringToPrimitive` for a value that is not computed: a
boolean field parses its string with `strconv.ParseBool` (the empty string is
`false`), a string field keeps it. -/
def stringToPrimitive (value : String) (t : ValueType) : Except String Value :=
  match t with
  | .TypeBool =>
    if value = "" then .ok (.bool false)
    else
      match ParseBool value with
      | some v => .ok (.bool v)
      | none => .error ("strconv.ParseBool: parsing " ++ value ++ ": invalid syntax")
  | .TypeString => .ok (.str value)

/-- The library's `Schema.DefaultValue` for a schema that sets `DefaultFunc`
and no `Default`, as every field of this provider does. -/
def Schema.DefaultValue (s : Schema) (env : Env) : Value × Error :=
  s.DefaultFunc env

/-- The library's `ConfigFieldReader.readPrimitive`: the value of the key in
the raw configuration; when the configuration does not set the key, the
schema default; `none` when that is nil as well. -/
def readPrimitive (c : ResourceConfig) (env : Env) (k : String) (s : Schema) :
    Except String (Option Value) :=
  match c.Get k with
  | some raw => (stringToPrimitive (WeakDecode raw) s.Typ).map some
  | none =>
    match s.DefaultValue env with
    | (_, some e) => .error (k ++ ", error loading default: " ++ e)
    | (.nil, none) => .ok none
    | (dv, none) => (stringToPrimitive (WeakDecode dv) s.Typ).map some

/-- What the library's `ResourceData.GetOk` reports for key `k` of the data
built from raw configuration `c`: the value read, and whether it exists and is
not the zero value of its type; the zero value and `false` for a field that
was not read; the nil interface and `false` for a key outside the schema. -/
def fieldGetOk (sm : List (String × Schema)) (env : Env) (c : ResourceConfig) (k : String) :
    Except String (Value × Bool) :=
  match sm.lookup k with
  | none => .ok (.nil, false)
  | some s =>
    match readPrimitive c env k s with
    | .error e => .error e
    | .ok none => .ok (s.Typ.Zero, false)
    | .ok (some v) => .ok (v, decide (v ≠ s.Typ.Zero))

/-- The data that `Provider.Configure` builds from the raw configuration
(the library's `schemaMap.Diff` followed by `schemaMap.Data`): an error when a
field cannot be read, otherwise the `ResourceData` whose `GetOk` reports
`fieldGetOk`. -/
def configData (sm : List (String × Schema)) (env : Env) (c : ResourceConfig) :
    Option ResourceData × Error :=
  match sm.findSome? (fun kv =>
      match fieldGetOk sm env c kv.1 with
      | .error e => some e
      | .ok _ => none) with
  | some e => (none, some e)
  | none =>
    (some { GetOk := fun k =>
              match fieldGetOk sm env c k with
              | .ok r => r
              | .error _ => (.nil, false) }, none)

/-- The library's `Provider.Configure`: build the data, call `ConfigureFunc`
on it and keep the handle it returns. -/
def Provider.Configure (p : Provider) (rt : Runtime) (env : Env) (c : ResourceConfig) :
    Option Client × Error :=
  match configData p.Schema env c with
  | (some data, none) =>
    match p.ConfigureFunc rt env data with
    | (gc, none) => (some gc, none)
    | (_, some err) => (none, some err)
  | (_, err) => (none, err)

/-! ## Concrete inputs -/

/-- A Linux build of Terraform 0.11.7. -/
def rtLinux : Runtime :=
  { GOOS := "linux", GOARCH := "amd64", VersionString := "0.11.7" }

/-- The environment with no variable set. -/
def envEmpty : Env :=
  fun _ => none

/-- An environment with all four provider variables set. -/
def envFull : Env :=
  fun k =>
    if k = "GOCD_URL" then some "https://env.example.com"
    else if k = "GOCD_USERNAME" then some "envuser"
    else if k = "GOCD_PASSWORD" then some "envpass"
    else if k = "GOCD_SKIP_SSL_CHECK" then some "true"
    else none

/-- A configuration input that reports no field as set. -/
def dataUnset : ResourceData :=
  { GetOk := fun _ => (.nil, false) }

/-- A configuration input with all four fields set; the server is plain HTTP. -/
def dataFull : ResourceData :=
  { GetOk := fun k =>
      if k = "baseurl" then (.str "http://gocd.local", true)
      else if k = "username" then (.str "admin", true)
      else if k = "password" then (.str "secret", true)
      else if k = "skip_ssl_check" then (.bool true, true)
      else (.nil, false) }

/-- The scenario input: an HTTPS server, certificate checks skipped, no
user name and no password. -/
def dataHttps : ResourceData :=
  { GetOk := fun k =>
      if k = "baseurl" then (.str "https://ci.example.com", true)
      else if k = "skip_ssl_check" then (.bool true, true)
      else (.nil, false) }

/-- A configuration input whose present values have the wrong shape: the
string fields hold an integer, an empty string and the nil interface, and the
boolean field holds a string. -/
def dataIllTyped : ResourceData :=
  { GetOk := fun k =>
      if k = "baseurl" then (.int 8153, true)
      else if k = "username" then (.str "", true)
      else if k = "password" then (.nil, true)
      else if k = "skip_ssl_check" then (.str "true", true)
      else (.nil, false) }

/-- A configuration input that sets only the server, to the given string. -/
def dataServer (url : String) : ResourceData :=
  { GetOk := fun k => if k = "baseurl" then (.str url, true) else (.nil, false) }

/-- A raw configuration that sets no field. -/
def configEmpty : ResourceConfig :=
  { Get := fun _ => none }

/-- A raw configuration that sets baseurl to the empty string and nothing
else. -/
def configBlankUrl : ResourceConfig :=
  { Get := fun k => if k = "baseurl" then some (.str "") else none }

/-! ## What `providerConfigure` computes, component by component -/

theorem providerConfigure_Server (rt : Runtime) (env : Env) (d : ResourceData) :
    (providerConfigure rt env d).1.cfg.Server =
      if (d.GetOk "baseurl").2 then
        (if !(d.GetOk "baseurl").1.assertString.2 || (d.GetOk "baseurl").1.assertString.1 == ""
          then Getenv env "GOCD_URL" else (d.GetOk "baseurl").1.assertString.1)
      else "" := rfl

theorem providerConfigure_Username (rt : Runtime) (env : Env) (d : ResourceData) :
    (providerConfigure rt env d).1.cfg.Username =
      if (d.GetOk "username").2 then
        (if !(d.GetOk "username").1.assertString.2 || (d.GetOk "username").1.assertString.1 == ""
          then Getenv env "GOCD_USERNAME" else (d.GetOk "username").1.assertString.1)
      else "" := rfl

theorem providerConfigure_Password (rt : Runtime) (env : Env) (d : ResourceData) :
    (providerConfigure rt env d).1.cfg.Password =
      if (d.GetOk "password").2 then
        (if !(d.GetOk "password").1.assertString.2 || (d.GetOk "password").1.assertString.1 == ""
          then Getenv env "GOCD_PASSWORD" else (d.GetOk "password").1.assertString.1)
      else "" := rfl

theorem providerConfigure_SkipSslCheck (rt : Runtime) (env : Env) (d : ResourceData) :
    (providerConfigure rt env d).1.cfg.SkipSslCheck =
      if (d.GetOk "skip_ssl_check").2 then
        (if !(d.GetOk "skip_ssl_check").1.assertBool.2 then false
          else (d.GetOk "skip_ssl_check").1.assertBool.1)
      else false := rfl

theorem providerConfigure_Transport (rt : Runtime) (env : Env) (d : ResourceData) :
    (providerConfigure rt env d).1.client.Transport =
      NewTransport "GoCD"
        (if HasPrefix (providerConfigure rt env d).1.cfg.Server "https" then
          .TLS (providerConfigure rt env d).1.cfg.SkipSslCheck
        else .DefaultTransport) := rfl

theorem providerConfigure_UserAgent (rt : Runtime) (env : Env) (d : ResourceData) :
    (providerConfigure rt env d).1.UserAgent =
      "(" ++ rt.GOOS ++ " " ++ rt.GOARCH ++ ") Terraform/" ++ rt.VersionString := rfl

/-- A string value that is present and non-empty passes the resolution step
unchanged. -/
theorem resolve_present_string (s fallback : String) (hs : s ≠ "") :
    (if !(Value.str s).assertString.2 || (Value.str s).assertString.1 == ""
      then fallback else (Value.str s).assertString.1) = s := by
  simp [Value.assertString, hs]

/-- A value that is not a non-empty string makes the resolution step take the
fallback. -/
theorem resolve_fallback (v : Value) (fallback : String)
    (hv : ∀ s, v = .str s → s = "") :
    (if !v.assertString.2 || v.assertString.1 == ""
      then fallback else v.assertString.1) = fallback := by
  cases v with
  | str s => simp [Value.assertString, hv s rfl]
  | nil => simp [Value.assertString]
  | bool b => simp [Value.assertString]
  | int n => simp [Value.assertString]

/-- A value that is present and not a boolean resolves the flag to `false`. -/
theorem resolve_not_bool (v : Value) (hv : ∀ b, v ≠ .bool b) :
    (if !v.assertBool.2 then false else v.assertBool.1) = false := by
  cases v with
  | bool b => exact absurd rfl (hv b)
  | nil => simp [Value.assertBool]
  | str s => simp [Value.assertBool]
  | int n => simp [Value.assertBool]

/-! ## C1: an explicit value wins over the environment -/

/-- C1: for each of baseurl, username and password, a value the configuration
input reports as present and that is a non-empty string `s` is the value put
into the client configuration (Server, Username, Password); for skip_ssl_check,
a present boolean `b` is the resolved SkipSslCheck. This holds for every
environment. -/
theorem C1_explicit_value_is_resolved (rt : Runtime) (env : Env) (d : ResourceData) :
    (∀ s : String, d.GetOk "baseurl" = (.str s, true) → s ≠ "" →
        (providerConfigure rt env d).1.cfg.Server = s) ∧
    (∀ s : String, d.GetOk "username" = (.str s, true) → s ≠ "" →
        (providerConfigure rt env d).1.cfg.Username = s) ∧
    (∀ s : String, d.GetOk "password" = (.str s, true) → s ≠ "" →
        (providerConfigure rt env d).1.cfg.Password = s) ∧
    (∀ b : Bool, d.GetOk "skip_ssl_check" = (.bool b, true) →
        (providerConfigure rt env d).1.cfg.SkipSslCheck = b) := by
  refine ⟨?_, ?_, ?_, ?_⟩
  · intro s h hs
    rw [providerConfigure_Server, h]
    simpa using resolve_present_string s (Getenv env "GOCD_URL") hs
  · intro s h hs
    rw [providerConfigure_Username, h]
    simpa using resolve_present_string s (Getenv env "GOCD_USERNAME") hs
  · intro s h hs
    rw [providerConfigure_Password, h]
    simpa using resolve_present_string s (Getenv env "GOCD_PASSWORD") hs
  · intro b h
    rw [providerConfigure_SkipSslCheck, h]
    simp [Value.assertBool]

/-- C1 at a concrete input: all four fields are set explicitly while the
environment holds four different values; the explicit ones are resolved. -/
theorem C1_explicit_value_is_resolved_witness :
    envFull "GOCD_URL" = some "https://env.example.com" ∧
    envFull "GOCD_SKIP_SSL_CHECK" = some "true" ∧
    (providerConfigure rtLinux envFull dataFull).1.cfg.Server = "http://gocd.local" ∧
    (providerConfigure rtLinux envFull dataFull).1.cfg.Username = "admin" ∧
    (providerConfigure rtLinux envFull dataFull).1.cfg.Password = "secret" ∧
    (providerConfigure rtLinux envFull dataFull).1.cfg.SkipSslCheck = true :=
  ⟨by decide, by decide,
    (C1_explicit_value_is_resolved rtLinux envFull dataFull).1
      "http://gocd.local" (by decide) (by decide),
    (C1_explicit_value_is_resolved rtLinux envFull dataFull).2.1
      "admin" (by decide) (by decide),
    (C1_explicit_value_is_resolved rtLinux envFull dataFull).2.2.1
      "secret" (by decide) (by decide),
    (C1_explicit_value_is_resolved rtLinux envFull dataFull).2.2.2
      true (by decide)⟩

/-! ## C2: a field the configuration does not set -/

/-- What `envDefault e` returns: the value of `e` as a string when it is
non-empty, the nil default otherwise; never an error. -/
theorem envDefault_eq (e : String) (env : Env) :
    envDefault e env =
      if Getenv env e = "" then (Value.nil, none) else (Value.str (Getenv env e), none) := by
  by_cases h : Getenv env e = ""
  · simp [envDefault, MultiEnvDefaultFunc, List.find?, h]
  · have hb : (Getenv env e != "") = true := by simpa using h
    simp [envDefault, MultiEnvDefaultFunc, List.find?, h, hb]

/-- The data built by `configData` reports `fieldGetOk` for every key. -/
theorem configData_GetOk (sm : List (String × Schema)) (env : Env) (c : ResourceConfig)
    (d : ResourceData) (hd : configData sm env c = (some d, none)) (k : String) :
    d.GetOk k =
      match fieldGetOk sm env c k with
      | .ok r => r
      | .error _ => (.nil, false) := by
  unfold configData at hd
  split at hd
  · simp at hd
  · simp only [Prod.mk.injEq, Option.some.injEq, and_true] at hd
    rw [← hd]

/-- Reading a string field never fails when its default function is
`envDefault`: an explicit value is reported in its string form, an absent one
as the value of the variable; either counts as set when it is non-empty. -/
theorem readPrimitive_string (c : ResourceConfig) (env : Env) (k e desc : String)
    (req opt : Bool) :
    readPrimitive c env k
        { Typ := .TypeString, Required := req, Optional := opt, Description := desc,
          DefaultFunc := envDefault e } =
      match c.Get k with
      | some raw => .ok (some (.str (WeakDecode raw)))
      | none => if Getenv env e = "" then .ok none else .ok (some (.str (Getenv env e))) := by
  unfold readPrimitive
  cases hc : c.Get k with
  | some raw => simp [stringToPrimitive, Except.map]
  | none =>
    by_cases hg : Getenv env e = ""
    · simp [Schema.DefaultValue, envDefault_eq, hg]
    · simp [Schema.DefaultValue, envDefault_eq, hg, stringToPrimitive, Except.map, WeakDecode]

/-- Reading a boolean field whose default function is `envDefault` and that
the configuration does not set: nothing when the variable is empty, the
boolean it parses to otherwise, and an error when it does not parse. -/
theorem readPrimitive_bool_unset (c : ResourceConfig) (env : Env) (k e desc : String)
    (req opt : Bool) (h : c.Get k = none) :
    readPrimitive c env k
        { Typ := .TypeBool, Required := req, Optional := opt, Description := desc,
          DefaultFunc := envDefault e } =
      if Getenv env e = "" then .ok none
      else (stringToPrimitive (Getenv env e) .TypeBool).map some := by
  unfold readPrimitive
  rw [h]
  by_cases hg : Getenv env e = ""
  · simp [Schema.DefaultValue, envDefault_eq, hg]
  · simp [Schema.DefaultValue, envDefault_eq, hg, WeakDecode]

/-- What `GetOk` reports for a string field that the configuration does not
set: the value of the field's variable, set when it is non-empty. -/
theorem fieldGetOk_string_unset (sm : List (String × Schema)) (env : Env) (c : ResourceConfig)
    (k e desc : String) (req opt : Bool)
    (hl : sm.lookup k = some
      { Typ := .TypeString, Required := req, Optional := opt, Description := desc,
        DefaultFunc := envDefault e })
    (h : c.Get k = none) :
    fieldGetOk sm env c k = .ok (.str (Getenv env e), decide (Getenv env e ≠ "")) := by
  unfold fieldGetOk
  rw [hl]
  simp only [readPrimitive_string, h]
  by_cases hg : Getenv env e = ""
  · simp [hg, ValueType.Zero]
  · simp [hg, ValueType.Zero]

/-- Reading a string field succeeds for every configuration. -/
theorem fieldGetOk_string_ok (sm : List (String × Schema)) (env : Env) (c : ResourceConfig)
    (k e desc : String) (req opt : Bool)
    (hl : sm.lookup k = some
      { Typ := .TypeString, Required := req, Optional := opt, Description := desc,
        DefaultFunc := envDefault e }) :
    ∃ r, fieldGetOk sm env c k = .ok r := by
  unfold fieldGetOk
  rw [hl]
  simp only [readPrimitive_string]
  cases c.Get k with
  | some raw => exact ⟨_, rfl⟩
  | none =>
    by_cases hg : Getenv env e = ""
    · simp [hg]
    · simp [hg]

/-- What `GetOk` reports for a boolean field that the configuration does not
set, when the field's variable is empty or parses as a boolean. -/
theorem fieldGetOk_bool_unset (sm : List (String × Schema)) (env : Env) (c : ResourceConfig)
    (k e desc : String) (req opt : Bool)
    (hl : sm.lookup k = some
      { Typ := .TypeBool, Required := req, Optional := opt, Description := desc,
        DefaultFunc := envDefault e })
    (h : c.Get k = none) :
    (Getenv env e = "" → fieldGetOk sm env c k = .ok (.bool false, false)) ∧
    (∀ b, ParseBool (Getenv env e) = some b → fieldGetOk sm env c k = .ok (.bool b, b)) ∧
    (Getenv env e ≠ "" → ParseBool (Getenv env e) = none →
      ∃ msg, fieldGetOk sm env c k = .error msg) := by
  have hempty : ParseBool "" = none := by decide
  refine ⟨?_, ?_, ?_⟩
  · intro hg
    unfold fieldGetOk
    rw [hl]
    simp [readPrimitive_bool_unset, h, hg, ValueType.Zero]
  · intro b hb
    have hg : Getenv env e ≠ "" := by
      intro hg
      rw [hg, hempty] at hb
      exact Option.noConfusion hb
    unfold fieldGetOk
    rw [hl]
    cases b <;>
      simp [readPrimitive_bool_unset, h, hg, hb, stringToPrimitive, Except.map, ValueType.Zero]
  · intro hg hb
    unfold fieldGetOk
    rw [hl]
    simp [readPrimitive_bool_unset, h, hg, hb, stringToPrimitive, Except.map]

/-- The data is built as soon as every field of the schema can be read. -/
theorem configData_ok (sm : List (String × Schema)) (env : Env) (c : ResourceConfig)
    (h : ∀ kv ∈ sm, ∃ r, fieldGetOk sm env c kv.1 = .ok r) :
    ∃ d, configData sm env c = (some d, none) := by
  have hnone : sm.findSome? (fun kv =>
      match fieldGetOk sm env c kv.1 with
      | .error e => some e
      | .ok _ => none) = none := by
    rw [List.findSome?_eq_none_iff]
    intro kv hkv
    obtain ⟨r, hr⟩ := h kv hkv
    simp [hr]
  unfold configData
  rw [hnone]
  exact ⟨_, rfl⟩

/-- The data is not built when a field of the schema cannot be read. -/
theorem configData_error (sm : List (String × Schema)) (env : Env) (c : ResourceConfig)
    (kv : String × Schema) (hkv : kv ∈ sm) (msg : String)
    (h : fieldGetOk sm env c kv.1 = .error msg) :
    (configData sm env c).1 = none := by
  unfold configData
  split
  · rfl
  · rename_i hnone
    rw [List.findSome?_eq_none_iff] at hnone
    have := hnone kv hkv
    simp [h] at this

/-- Reading an explicit boolean value succeeds when its string form is empty or
parses as a boolean. -/
theorem fieldGetOk_bool_explicit (sm : List (String × Schema)) (env : Env) (c : ResourceConfig)
    (k e desc : String) (req opt : Bool) (raw : Value)
    (hl : sm.lookup k = some
      { Typ := .TypeBool, Required := req, Optional := opt, Description := desc,
        DefaultFunc := envDefault e })
    (h : c.Get k = some raw)
    (hraw : WeakDecode raw = "" ∨ ParseBool (WeakDecode raw) ≠ none) :
    ∃ r, fieldGetOk sm env c k = .ok r := by
  unfold fieldGetOk readPrimitive
  rw [hl]
  simp only [h]
  by_cases hw : WeakDecode raw = ""
  · simp [stringToPrimitive, hw, Except.map]
  · have hp : ParseBool (WeakDecode raw) ≠ none := hraw.resolve_left hw
    obtain ⟨b, hb⟩ := Option.ne_none_iff_exists'.mp hp
    simp [stringToPrimitive, hw, hb, Except.map]

/-- The value `providerConfigure` resolves for a string field from a value
reported as set exactly when it is non-empty. -/
theorem resolve_reported_string (v fallback : String) :
    (if decide (v ≠ "") = true then
      (if !(Value.str v).assertString.2 || (Value.str v).assertString.1 == ""
        then fallback else (Value.str v).assertString.1)
    else "") = v := by
  by_cases hv : v = ""
  · simp [hv]
  · simp [hv, Value.assertString]

/-- C2: when the raw configuration gives no explicit value for a field and the
field's environment variable (GOCD_URL, GOCD_USERNAME, GOCD_PASSWORD,
GOCD_SKIP_SSL_CHECK) is set to `v`, the value that `providerConfigure`
resolves for the field, on the data the provider builds from its schema, is
`v`: the string `v` for baseurl, username and password, and for skip_ssl_check
the boolean that `v` parses to (`false` for the empty string). The data is
built, and `providerConfigure` is what `Configure` runs on it, whenever the
value given for skip_ssl_check is empty or parses as a boolean; when the
variable holds anything else no data is built. -/
theorem C2_unset_field_takes_environment (rt : Runtime) (env : Env) (c : ResourceConfig) :
    ((c.Get "skip_ssl_check" = none →
        Getenv env "GOCD_SKIP_SSL_CHECK" = "" ∨
          ParseBool (Getenv env "GOCD_SKIP_SSL_CHECK") ≠ none) →
      (∀ raw, c.Get "skip_ssl_check" = some raw →
        WeakDecode raw = "" ∨ ParseBool (WeakDecode raw) ≠ none) →
      ∃ d, configData SchemaProvider.Schema env c = (some d, none) ∧
        SchemaProvider.Configure rt env c = (some (providerConfigure rt env d).1, none)) ∧
    (c.Get "skip_ssl_check" = none → Getenv env "GOCD_SKIP_SSL_CHECK" ≠ "" →
      ParseBool (Getenv env "GOCD_SKIP_SSL_CHECK") = none →
      (configData SchemaProvider.Schema env c).1 = none) ∧
    (∀ d, configData SchemaProvider.Schema env c = (some d, none) →
      (∀ v : String, c.Get "baseurl" = none → env "GOCD_URL" = some v →
        (providerConfigure rt env d).1.cfg.Server = v) ∧
      (∀ v : String, c.Get "username" = none → env "GOCD_USERNAME" = some v →
        (providerConfigure rt env d).1.cfg.Username = v) ∧
      (∀ v : String, c.Get "password" = none → env "GOCD_PASSWORD" = some v →
        (providerConfigure rt env d).1.cfg.Password = v) ∧
      (∀ (v : String) (b : Bool), c.Get "skip_ssl_check" = none →
        env "GOCD_SKIP_SSL_CHECK" = some v → ParseBool v = some b →
        (providerConfigure rt env d).1.cfg.SkipSslCheck = b) ∧
      (c.Get "skip_ssl_check" = none → env "GOCD_SKIP_SSL_CHECK" = some "" →
        (providerConfigure rt env d).1.cfg.SkipSslCheck = false)) := by
  refine ⟨?_, ?_, ?_⟩
  · intro henv hraw
    have hall : ∀ kv ∈ SchemaProvider.Schema,
        ∃ r, fieldGetOk SchemaProvider.Schema env c kv.1 = .ok r := by
      intro kv hkv
      simp only [SchemaProvider, List.mem_cons, List.mem_singleton, List.not_mem_nil,
        or_false] at hkv
      rcases hkv with rfl | rfl | rfl | rfl
      · exact fieldGetOk_string_ok _ env c "baseurl" "GOCD_URL" _ _ _ rfl
      · exact fieldGetOk_string_ok _ env c "username" "GOCD_USERNAME" _ _ _ rfl
      · exact fieldGetOk_string_ok _ env c "password" "GOCD_PASSWORD" _ _ _ rfl
      · cases hc : c.Get "skip_ssl_check" with
        | some raw =>
          exact fieldGetOk_bool_explicit _ env c "skip_ssl_check" "GOCD_SKIP_SSL_CHECK"
            _ _ _ raw rfl hc (hraw raw hc)
        | none =>
          have hb := fieldGetOk_bool_unset SchemaProvider.Schema env c "skip_ssl_check"
            "GOCD_SKIP_SSL_CHECK" _ _ _ rfl hc
          rcases henv hc with hg | hp
          · exact ⟨_, hb.1 hg⟩
          · obtain ⟨b, hpb⟩ := Option.ne_none_iff_exists'.mp hp
            exact ⟨_, hb.2.1 b hpb⟩
    obtain ⟨d, hd⟩ := configData_ok _ env c hall
    refine ⟨d, hd, ?_⟩
    unfold Provider.Configure
    rw [hd]
    rfl
  · intro hc hg hp
    obtain ⟨msg, hmsg⟩ := (fieldGetOk_bool_unset SchemaProvider.Schema env c "skip_ssl_check"
      "GOCD_SKIP_SSL_CHECK" _ _ _ rfl hc).2.2 hg hp
    exact configData_error SchemaProvider.Schema env c _
      (List.Mem.tail _ (List.Mem.tail _ (List.Mem.tail _ (List.Mem.head _)))) msg hmsg
  · intro d hd
    refine ⟨?_, ?_, ?_, ?_, ?_⟩
    · intro v hc he
      have hg : Getenv env "GOCD_URL" = v := by simp [Getenv, he]
      have hk := configData_GetOk _ env c d hd "baseurl"
      rw [fieldGetOk_string_unset SchemaProvider.Schema env c "baseurl" "GOCD_URL" _ _ _ rfl hc, hg] at hk
      rw [providerConfigure_Server, hk]
      exact resolve_reported_string v _
    · intro v hc he
      have hg : Getenv env "GOCD_USERNAME" = v := by simp [Getenv, he]
      have hk := configData_GetOk _ env c d hd "username"
      rw [fieldGetOk_string_unset SchemaProvider.Schema env c "username" "GOCD_USERNAME" _ _ _ rfl hc, hg] at hk
      rw [providerConfigure_Username, hk]
      exact resolve_reported_string v _
    · intro v hc he
      have hg : Getenv env "GOCD_PASSWORD" = v := by simp [Getenv, he]
      have hk := configData_GetOk _ env c d hd "password"
      rw [fieldGetOk_string_unset SchemaProvider.Schema env c "password" "GOCD_PASSWORD" _ _ _ rfl hc, hg] at hk
      rw [providerConfigure_Password, hk]
      exact resolve_reported_string v _
    · intro v b hc he hp
      have hg : Getenv env "GOCD_SKIP_SSL_CHECK" = v := by simp [Getenv, he]
      have hk := configData_GetOk _ env c d hd "skip_ssl_check"
      rw [(fieldGetOk_bool_unset SchemaProvider.Schema env c "skip_ssl_check"
        "GOCD_SKIP_SSL_CHECK" _ _ _ rfl hc).2.1 b (hg ▸ hp)] at hk
      rw [providerConfigure_SkipSslCheck, hk]
      cases b <;> simp [Value.assertBool]
    · intro hc he
      have hg : Getenv env "GOCD_SKIP_SSL_CHECK" = "" := by simp [Getenv, he]
      have hk := configData_GetOk _ env c d hd "skip_ssl_check"
      rw [(fieldGetOk_bool_unset SchemaProvider.Schema env c "skip_ssl_check"
        "GOCD_SKIP_SSL_CHECK" _ _ _ rfl hc).1 hg] at hk
      rw [providerConfigure_SkipSslCheck, hk]
      rfl

/-- C2 at a concrete input: the raw configuration sets nothing and all four
variables are set; the data is built, `Configure` runs `providerConfigure` on
it, and every field resolves to the value of its variable. -/
theorem C2_unset_field_takes_environment_witness :
    configEmpty.Get "baseurl" = none ∧
    envFull "GOCD_URL" = some "https://env.example.com" ∧
    ParseBool "true" = some true ∧
    ∃ d, configData SchemaProvider.Schema envFull configEmpty = (some d, none) ∧
      SchemaProvider.Configure rtLinux envFull configEmpty =
        (some (providerConfigure rtLinux envFull d).1, none) ∧
      (providerConfigure rtLinux envFull d).1.cfg.Server = "https://env.example.com" ∧
      (providerConfigure rtLinux envFull d).1.cfg.Username = "envuser" ∧
      (providerConfigure rtLinux envFull d).1.cfg.Password = "envpass" ∧
      (providerConfigure rtLinux envFull d).1.cfg.SkipSslCheck = true := by
  obtain ⟨d, hd, hrun⟩ := (C2_unset_field_takes_environment rtLinux envFull configEmpty).1
    (fun _ => Or.inr (by decide)) (fun raw h => Option.noConfusion h)
  have hfields := (C2_unset_field_takes_environment rtLinux envFull configEmpty).2.2 d hd
  exact ⟨rfl, by decide, by decide, d, hd, hrun,
    hfields.1 _ rfl (by decide),
    hfields.2.1 _ rfl (by decide),
    hfields.2.2.1 _ rfl (by decide),
    hfields.2.2.2.1 "true" true rfl (by decide) (by decide)⟩

/-- The whole path evaluated: with nothing configured and all four variables
set, `Configure` returns a client whose configuration holds the four values
of the environment. -/
theorem Configure_environment_only :
    (SchemaProvider.Configure rtLinux envFull configEmpty).1.map (fun gc => gc.cfg) =
      some { Server := "https://env.example.com", Username := "envuser",
             Password := "envpass", SkipSslCheck := true } := by
  decide

/-- An explicit empty baseurl is an explicit value, so the schema default is
not taken; `GetOk` reports the zero value as not set and the server resolves to
the empty string although GOCD_URL is set. -/
theorem Configure_explicit_empty_baseurl :
    (SchemaProvider.Configure rtLinux envFull configBlankUrl).1.map (fun gc => gc.cfg.Server) =
      some "" := by
  decide

/-! ## C3: an ill-typed skip_ssl_check -/

/-- C3: when the configuration input reports skip_ssl_check as present with a
value that is not a boolean, SkipSslCheck resolves to `false` in every
environment; and for every input the resolved flag is the same in any two
environments, so the environment is not consulted for this field. -/
theorem C3_ill_typed_flag_is_false (rt : Runtime) (env : Env) (d : ResourceData) (v : Value)
    (hset : d.GetOk "skip_ssl_check" = (v, true)) (hv : ∀ b : Bool, v ≠ .bool b) :
    (providerConfigure rt env d).1.cfg.SkipSslCheck = false ∧
    ∀ (d₁ : ResourceData) (env₁ env₂ : Env),
      (providerConfigure rt env₁ d₁).1.cfg.SkipSslCheck =
        (providerConfigure rt env₂ d₁).1.cfg.SkipSslCheck := by
  refine ⟨?_, fun d₁ env₁ env₂ => rfl⟩
  rw [providerConfigure_SkipSslCheck, hset]
  simpa using resolve_not_bool v hv

/-- C3 at a concrete input: skip_ssl_check holds the string "true" and
GOCD_SKIP_SSL_CHECK is "true"; the resolved flag is `false`. -/
theorem C3_ill_typed_flag_is_false_witness :
    dataIllTyped.GetOk "skip_ssl_check" = (.str "true", true) ∧
    envFull "GOCD_SKIP_SSL_CHECK" = some "true" ∧
    (providerConfigure rtLinux envFull dataIllTyped).1.cfg.SkipSslCheck = false :=
  ⟨by decide, by decide,
    (C3_ill_typed_flag_is_false rtLinux envFull dataIllTyped (.str "true")
      (by decide) (fun b h => Value.noConfusion h)).1⟩

/-! ## C4 and C5: the transport -/

/-- C4: when the resolved server starts with "https", the client's transport is
the logging wrapper around a TLS transport whose InsecureSkipVerify is the
resolved SkipSslCheck: verification is enforced when the flag is `false` and
disabled when it is `true`. -/
theorem C4_https_transport_follows_flag (rt : Runtime) (env : Env) (d : ResourceData)
    (hs : HasPrefix (providerConfigure rt env d).1.cfg.Server "https" = true) :
    (providerConfigure rt env d).1.client.Transport =
      .Logging "GoCD" (.TLS (providerConfigure rt env d).1.cfg.SkipSslCheck) ∧
    ((providerConfigure rt env d).1.cfg.SkipSslCheck = false →
      (providerConfigure rt env d).1.client.Transport = .Logging "GoCD" (.TLS false)) ∧
    ((providerConfigure rt env d).1.cfg.SkipSslCheck = true →
      (providerConfigure rt env d).1.client.Transport = .Logging "GoCD" (.TLS true)) := by
  have h : (providerConfigure rt env d).1.client.Transport =
      .Logging "GoCD" (.TLS (providerConfigure rt env d).1.cfg.SkipSslCheck) := by
    rw [providerConfigure_Transport, if_pos hs]; rfl
  exact ⟨h, fun hf => by rw [h, hf], fun ht => by rw [h, ht]⟩

/-- C4 at the scenario input: baseurl "https://ci.example.com", skip_ssl_check
true, no user name, no password, empty environment. -/
theorem C4_https_transport_follows_flag_witness :
    (providerConfigure rtLinux envEmpty dataHttps).1.cfg.Server = "https://ci.example.com" ∧
    (providerConfigure rtLinux envEmpty dataHttps).1.cfg.Username = "" ∧
    (providerConfigure rtLinux envEmpty dataHttps).1.cfg.Password = "" ∧
    (providerConfigure rtLinux envEmpty dataHttps).1.cfg.SkipSslCheck = true ∧
    (providerConfigure rtLinux envEmpty dataHttps).1.client.Transport =
      .Logging "GoCD" (.TLS true) :=
  ⟨by decide, by decide, by decide, by decide,
    (C4_https_transport_follows_flag rtLinux envEmpty dataHttps (by decide)).2.2 (by decide)⟩

/-- C5: when the resolved server does not start with "https", the transport
that the logging wrapper is put around is the default transport; any other run
whose server does not start with "https" gets the same transport, whatever its
skip-verify flag. -/
theorem C5_other_scheme_default_transport (rt : Runtime) (env : Env) (d : ResourceData)
    (hs : HasPrefix (providerConfigure rt env d).1.cfg.Server "https" = false) :
    (providerConfigure rt env d).1.client.Transport = .Logging "GoCD" .DefaultTransport ∧
    ∀ (rt₁ : Runtime) (env₁ : Env) (d₁ : ResourceData),
      HasPrefix (providerConfigure rt₁ env₁ d₁).1.cfg.Server "https" = false →
      (providerConfigure rt₁ env₁ d₁).1.client.Transport =
        (providerConfigure rt env d).1.client.Transport := by
  have key : ∀ (rt₁ : Runtime) (env₁ : Env) (d₁ : ResourceData),
      HasPrefix (providerConfigure rt₁ env₁ d₁).1.cfg.Server "https" = false →
      (providerConfigure rt₁ env₁ d₁).1.client.Transport =
        .Logging "GoCD" .DefaultTransport := by
    intro rt₁ env₁ d₁ h
    rw [providerConfigure_Transport, h]; rfl
  exact ⟨key rt env d hs, fun rt₁ env₁ d₁ h => by rw [key rt₁ env₁ d₁ h, key rt env d hs]⟩

/-- C5 at concrete inputs: "http://gocd.local" with skip_ssl_check true, the
upper-case "HTTPS://x", and the empty server. -/
theorem C5_other_scheme_default_transport_witness :
    (providerConfigure rtLinux envEmpty dataFull).1.cfg.SkipSslCheck = true ∧
    (providerConfigure rtLinux envEmpty dataFull).1.client.Transport =
      .Logging "GoCD" .DefaultTransport ∧
    (providerConfigure rtLinux envEmpty (dataServer "HTTPS://x")).1.client.Transport =
      .Logging "GoCD" .DefaultTransport ∧
    (providerConfigure rtLinux envEmpty dataUnset).1.cfg.Server = "" ∧
    (providerConfigure rtLinux envEmpty dataUnset).1.client.Transport =
      .Logging "GoCD" .DefaultTransport :=
  ⟨by decide,
    (C5_other_scheme_default_transport rtLinux envEmpty dataFull (by decide)).1,
    (C5_other_scheme_default_transport rtLinux envEmpty (dataServer "HTTPS://x")
      (by decide)).1,
    by decide,
    (C5_other_scheme_default_transport rtLinux envEmpty dataUnset (by decide)).1⟩

/-! ## C6: the user agent -/

/-- C6: the user agent of the returned client is "(" ++ OS ++ " " ++ ARCH ++
") Terraform/" ++ VERSION. It therefore has the OS identifier and the
architecture identifier inside it, ends with "Terraform/" followed by the
version, which is a non-empty token when VERSION is non-empty, and is the same
for every configuration input and environment. -/
theorem C6_user_agent (rt : Runtime) (env : Env) (d : ResourceData) :
    (providerConfigure rt env d).1.UserAgent =
      "(" ++ rt.GOOS ++ " " ++ rt.GOARCH ++ ") Terraform/" ++ rt.VersionString ∧
    (∃ pre post : String, (providerConfigure rt env d).1.UserAgent = pre ++ rt.GOOS ++ post) ∧
    (∃ pre post : String, (providerConfigure rt env d).1.UserAgent = pre ++ rt.GOARCH ++ post) ∧
    (rt.VersionString ≠ "" →
      ∃ pre token : String, token ≠ "" ∧ token = rt.VersionString ∧
        (providerConfigure rt env d).1.UserAgent = pre ++ "Terraform/" ++ token) ∧
    (∀ (env₁ : Env) (d₁ : ResourceData),
      (providerConfigure rt env₁ d₁).1.UserAgent = (providerConfigure rt env d).1.UserAgent) := by
  refine ⟨rfl, ?_, ?_, ?_, fun _ _ => rfl⟩
  · refine ⟨"(", " " ++ rt.GOARCH ++ ") Terraform/" ++ rt.VersionString, ?_⟩
    rw [providerConfigure_UserAgent]
    simp only [String.append_assoc]
  · refine ⟨"(" ++ rt.GOOS ++ " ", ") Terraform/" ++ rt.VersionString, ?_⟩
    rw [providerConfigure_UserAgent]
    simp only [String.append_assoc]
  · intro hne
    refine ⟨"(" ++ rt.GOOS ++ " " ++ rt.GOARCH ++ ") ", rt.VersionString, hne, rfl, ?_⟩
    rw [providerConfigure_UserAgent]
    have hsplit : ") Terraform/" = ") " ++ "Terraform/" := by decide
    rw [hsplit]
    simp only [String.append_assoc]

/-- C6 at a concrete input: Terraform 0.11.7 on linux/amd64. -/
theorem C6_user_agent_witness :
    (providerConfigure rtLinux envFull dataFull).1.UserAgent = "(linux amd64) Terraform/0.11.7" ∧
    ∃ pre token : String, token ≠ "" ∧ token = "0.11.7" ∧
      (providerConfigure rtLinux envFull dataFull).1.UserAgent = pre ++ "Terraform/" ++ token :=
  ⟨(C6_user_agent rtLinux envFull dataFull).1.trans (by decide),
    (C6_user_agent rtLinux envFull dataFull).2.2.2.1 (by decide)⟩

/-! ## C7: no failure is surfaced -/

/-- C7: for every configuration input and environment `providerConfigure`
returns a client handle with the nil error; a field that the input reports as
not set and whose environment variable is not set resolves to the empty string
(`false` for skip_ssl_check), the required baseurl included. -/
theorem C7_no_error_surfaced (rt : Runtime) (env : Env) (d : ResourceData) :
    (∃ gc : Client, providerConfigure rt env d = (gc, none)) ∧
    ((d.GetOk "baseurl").2 = false → env "GOCD_URL" = none →
      (providerConfigure rt env d).1.cfg.Server = "") ∧
    ((d.GetOk "username").2 = false → env "GOCD_USERNAME" = none →
      (providerConfigure rt env d).1.cfg.Username = "") ∧
    ((d.GetOk "password").2 = false → env "GOCD_PASSWORD" = none →
      (providerConfigure rt env d).1.cfg.Password = "") ∧
    ((d.GetOk "skip_ssl_check").2 = false → env "GOCD_SKIP_SSL_CHECK" = none →
      (providerConfigure rt env d).1.cfg.SkipSslCheck = false) := by
  refine ⟨⟨(providerConfigure rt env d).1, rfl⟩, ?_, ?_, ?_, ?_⟩
  · intro h _
    rw [providerConfigure_Server, h]; rfl
  · intro h _
    rw [providerConfigure_Username, h]; rfl
  · intro h _
    rw [providerConfigure_Password, h]; rfl
  · intro h _
    rw [providerConfigure_SkipSslCheck, h]; rfl

/-- C7 at a concrete input: nothing is configured and the environment is
empty; the call still returns a client, with the nil error and an empty
server. -/
theorem C7_no_error_surfaced_witness :
    (providerConfigure rtLinux envEmpty dataUnset).2 = none ∧
    (providerConfigure rtLinux envEmpty dataUnset).1.cfg.Server = "" ∧
    (providerConfigure rtLinux envEmpty dataUnset).1.cfg.Username = "" ∧
    (providerConfigure rtLinux envEmpty dataUnset).1.cfg.Password = "" ∧
    (providerConfigure rtLinux envEmpty dataUnset).1.cfg.SkipSslCheck = false :=
  ⟨by decide,
    (C7_no_error_surfaced rtLinux envEmpty dataUnset).2.1 (by decide) (by decide),
    (C7_no_error_surfaced rtLinux envEmpty dataUnset).2.2.1 (by decide) (by decide),
    (C7_no_error_surfaced rtLinux envEmpty dataUnset).2.2.2.1 (by decide) (by decide),
    (C7_no_error_surfaced rtLinux envEmpty dataUnset).2.2.2.2 (by decide) (by decide)⟩

/-! ## C8: the declared schema -/

/-- C8: the schema of `SchemaProvider` has exactly the four keys baseurl,
username, password and skip_ssl_check; baseurl is a required string with
default `envDefault "GOCD_URL"`, username and password are optional strings
with defaults from GOCD_USERNAME and GOCD_PASSWORD, skip_ssl_check is an
optional boolean with default from GOCD_SKIP_SSL_CHECK; the result of
`envDefault e` is the same in two environments that agree on `e`; and the
configure function of the provider is `providerConfigure`. -/
theorem C8_schema_declares_four_fields :
    SchemaProvider.Schema.map Prod.fst =
      ["baseurl", "username", "password", "skip_ssl_check"] ∧
    (∃ f : Schema, SchemaProvider.Schema.lookup "baseurl" = some f ∧
      f.Typ = .TypeString ∧ f.Required = true ∧ f.Optional = false ∧
      f.DefaultFunc = envDefault "GOCD_URL") ∧
    (∃ f : Schema, SchemaProvider.Schema.lookup "username" = some f ∧
      f.Typ = .TypeString ∧ f.Required = false ∧ f.Optional = true ∧
      f.DefaultFunc = envDefault "GOCD_USERNAME") ∧
    (∃ f : Schema, SchemaProvider.Schema.lookup "password" = some f ∧
      f.Typ = .TypeString ∧ f.Required = false ∧ f.Optional = true ∧
      f.DefaultFunc = envDefault "GOCD_PASSWORD") ∧
    (∃ f : Schema, SchemaProvider.Schema.lookup "skip_ssl_check" = some f ∧
      f.Typ = .TypeBool ∧ f.Required = false ∧ f.Optional = true ∧
      f.DefaultFunc = envDefault "GOCD_SKIP_SSL_CHECK") ∧
    (∀ (e : String) (env₁ env₂ : Env), env₁ e = env₂ e →
      envDefault e env₁ = envDefault e env₂) ∧
    SchemaProvider.ConfigureFunc = providerConfigure := by
  refine ⟨rfl, ⟨_, rfl, rfl, rfl, rfl, rfl⟩, ⟨_, rfl, rfl, rfl, rfl, rfl⟩,
    ⟨_, rfl, rfl, rfl, rfl, rfl⟩, ⟨_, rfl, rfl, rfl, rfl, rfl⟩, ?_, rfl⟩
  intro e env₁ env₂ h
  have hg : Getenv env₁ e = Getenv env₂ e := by simp [Getenv, h]
  rw [envDefault_eq, envDefault_eq, hg]

/-- C8 at concrete environments: two environments that agree on GOCD_URL and
differ on every other variable give the same baseurl default, the value of
GOCD_URL. -/
theorem C8_schema_declares_four_fields_witness :
    envDefault "GOCD_URL" envFull = envDefault "GOCD_URL"
      (fun k => if k = "GOCD_URL" then some "https://env.example.com" else some "x") ∧
    envDefault "GOCD_URL" envFull = (.str "https://env.example.com", none) :=
  ⟨C8_schema_declares_four_fields.2.2.2.2.2.1 "GOCD_URL" envFull _ (by decide),
    by decide⟩

/-! ## C9: falling back to the environment -/

/-- C9: for each of baseurl, username and password, when the configuration
input reports the field as present with a value that is not a string, or is
the empty string, the resolved value is `os.Getenv` of the field's own
variable (the empty string when that variable is not set); and for every
input the resolved value is the same in two environments that agree on that
one variable. -/
theorem C9_fallback_to_own_variable (rt : Runtime) (env : Env) (d : ResourceData) :
    (∀ v : Value, d.GetOk "baseurl" = (v, true) → (∀ s, v = .str s → s = "") →
      (providerConfigure rt env d).1.cfg.Server = Getenv env "GOCD_URL") ∧
    (∀ v : Value, d.GetOk "username" = (v, true) → (∀ s, v = .str s → s = "") →
      (providerConfigure rt env d).1.cfg.Username = Getenv env "GOCD_USERNAME") ∧
    (∀ v : Value, d.GetOk "password" = (v, true) → (∀ s, v = .str s → s = "") →
      (providerConfigure rt env d).1.cfg.Password = Getenv env "GOCD_PASSWORD") ∧
    (∀ k : String, env k = none → Getenv env k = "") ∧
    (∀ k v : String, env k = some v → Getenv env k = v) ∧
    (∀ env₁ : Env, env₁ "GOCD_URL" = env "GOCD_URL" →
      (providerConfigure rt env₁ d).1.cfg.Server = (providerConfigure rt env d).1.cfg.Server) ∧
    (∀ env₁ : Env, env₁ "GOCD_USERNAME" = env "GOCD_USERNAME" →
      (providerConfigure rt env₁ d).1.cfg.Username =
        (providerConfigure rt env d).1.cfg.Username) ∧
    (∀ env₁ : Env, env₁ "GOCD_PASSWORD" = env "GOCD_PASSWORD" →
      (providerConfigure rt env₁ d).1.cfg.Password =
        (providerConfigure rt env d).1.cfg.Password) := by
  refine ⟨?_, ?_, ?_, ?_, ?_, ?_, ?_, ?_⟩
  · intro v h hv
    rw [providerConfigure_Server, h]
    simpa using resolve_fallback v (Getenv env "GOCD_URL") hv
  · intro v h hv
    rw [providerConfigure_Username, h]
    simpa using resolve_fallback v (Getenv env "GOCD_USERNAME") hv
  · intro v h hv
    rw [providerConfigure_Password, h]
    simpa using resolve_fallback v (Getenv env "GOCD_PASSWORD") hv
  · intro k h
    simp [Getenv, h]
  · intro k v h
    simp [Getenv, h]
  · intro env₁ h
    simp only [providerConfigure_Server, Getenv, h]
  · intro env₁ h
    simp only [providerConfigure_Username, Getenv, h]
  · intro env₁ h
    simp only [providerConfigure_Password, Getenv, h]

/-- C9 at concrete inputs: baseurl holds an integer, username the empty string
and password the nil interface; each resolves to its own variable, and to the
empty string in the empty environment. -/
theorem C9_fallback_to_own_variable_witness :
    (providerConfigure rtLinux envFull dataIllTyped).1.cfg.Server = "https://env.example.com" ∧
    (providerConfigure rtLinux envFull dataIllTyped).1.cfg.Username = "envuser" ∧
    (providerConfigure rtLinux envFull dataIllTyped).1.cfg.Password = "envpass" ∧
    (providerConfigure rtLinux envEmpty dataIllTyped).1.cfg.Server = "" :=
  ⟨((C9_fallback_to_own_variable rtLinux envFull dataIllTyped).1 (.int 8153) (by decide)
      (fun _ h => Value.noConfusion h)).trans (by decide),
    ((C9_fallback_to_own_variable rtLinux envFull dataIllTyped).2.1 (.str "") (by decide)
      (fun _ h => (Value.str.inj h).symm)).trans (by decide),
    ((C9_fallback_to_own_variable rtLinux envFull dataIllTyped).2.2.1 .nil (by decide)
      (fun _ h => Value.noConfusion h)).trans (by decide),
    ((C9_fallback_to_own_variable rtLinux envEmpty dataIllTyped).1 (.int 8153) (by decide)
      (fun _ h => Value.noConfusion h)).trans (by decide)⟩

/-! ## C10: the descriptions of the declared fields -/

/-- C10, evaluated on the code: the descriptions table holds an entry for
"baseurl", but the schema looks the baseurl description up under
"gocd_baseurl", and the table has no entry for "skip_ssl_check"; both fields
are declared with the empty description, while username and password carry
their table entries. -/
theorem C10_descriptions_of_declared_fields :
    SchemaProvider.Schema.map (fun kv => (kv.1, kv.2.Description)) =
      [ ("baseurl", ""),
        ("username", "User to interact with the GoCD API with."),
        ("password", "Password for User for GoCD API interaction."),
        ("skip_ssl_check", "") ] ∧
    descriptions.lookup "baseurl" = some "URL for the GoCD Server" ∧
    descriptions.lookup "gocd_baseurl" = none ∧
    descriptions.lookup "skip_ssl_check" = none := by
  decide

end Gocd
